import Mathlib

/-
Verification of the Strength_envelopes repository (marcoalopez/Strength_envelopes).

The repository is a set of educational Jupyter notebooks.  The only notebook
present, `notebooks/brittle_faults_p2.ipynb`, consists of four cells: a title
markdown cell, a setup code cell (library module bindings and matplotlib style
configuration), a markdown cell stating the Hubbert-Rubey fluid-pressure
formulas, and a code cell printing library versions.

This file shallowly embeds:
  * the algebraic formulas stated in the markdown of the notebook
    (Coulomb law, effective-normal-stress form, pore-pressure-ratio form),
    as functions over the rationals;
  * a small expression language for the closed-form formulas a notebook cell
    can evaluate, with an evaluator that raises numeric-domain errors
    (division by zero) as Python would;
  * the notebook itself as a list of cells of statements, together with a
    sequential kernel-state execution semantics for those cells.
-/

namespace StrengthEnvelopes

/-! ## The formulas stated in the Hubbert-Rubey markdown cell

From `brittle_faults_p2.ipynb`:
`tau = C_0 + mu sigma_n^eff = C_0 + mu (sigma_n - P_f)` and
`tau = C_0 + mu sigma_n (1 - lambda)` where `lambda = P_f / sigma_L`,
holding when `sigma_L = sigma_n`.  Coulomb's law is `tau = C_0 + mu sigma_n`.
-/

/-- Coulomb's law for fault shear strength: `tau = C_0 + mu * sigma_n`. -/
def tau_coulomb (C_0 mu sigma_n : ℚ) : ℚ :=
  C_0 + mu * sigma_n

/-- Hubbert-Rubey shear strength, effective-normal-stress form:
`tau = C_0 + mu * (sigma_n - P_f)`. -/
def tau_eff (C_0 mu sigma_n P_f : ℚ) : ℚ :=
  C_0 + mu * (sigma_n - P_f)

/-- Hubbert-Rubey shear strength, pore-pressure-ratio form:
`tau = C_0 + mu * sigma_n * (1 - lambda)`. -/
def tau_HR (C_0 mu sigma_n lam : ℚ) : ℚ :=
  C_0 + mu * sigma_n * (1 - lam)

/-- C1: For every cohesion `C_0`, friction coefficient `mu` and normal stress
`sigma_n`, the pore-pressure strength formula `tau = C_0 + mu*sigma_n*(1-lambda)`
evaluated at `lambda = 0` equals Coulomb's law `tau = C_0 + mu*sigma_n`. -/
theorem hubbert_rubey_reduces_to_coulomb (C_0 mu sigma_n : ℚ) :
    tau_HR C_0 mu sigma_n 0 = tau_coulomb C_0 mu sigma_n := by
  simp [tau_HR, tau_coulomb]

/-- C9: the two statements of the Hubbert-Rubey law in the notebook agree: for
`sigma_n` nonzero, taking `lambda = P_f / sigma_n` turns the
effective-normal-stress form into the pore-pressure-ratio form. -/
theorem tau_eff_eq_tau_HR (C_0 mu sigma_n P_f : ℚ) (h : sigma_n ≠ 0) :
    tau_eff C_0 mu sigma_n P_f = tau_HR C_0 mu sigma_n (P_f / sigma_n) := by
  unfold tau_eff tau_HR
  field_simp
  ring

/-- Witness for C9 at `C_0 = 0`, `mu = 6/10`, `sigma_n = 3`, `P_f = 1`. -/
theorem tau_eff_eq_tau_HR_witness :
    (3 : ℚ) ≠ 0 ∧ tau_eff 0 (6/10) 3 1 = tau_HR 0 (6/10) 3 (1 / 3) :=
  ⟨by norm_num, tau_eff_eq_tau_HR 0 (6/10) 3 1 (by norm_num)⟩

/-- C10: the Hubbert-Rubey shear strength is strictly decreasing in the
pore-pressure ratio: for `mu > 0` and `sigma_n > 0`, a larger `lambda` gives a
strictly smaller shear strength (the notebook's claim that higher fluid pore
pressure gives smaller fault shear strength). -/
theorem tau_HR_strict_anti (C_0 mu sigma_n lam1 lam2 : ℚ)
    (hmu : 0 < mu) (hsn : 0 < sigma_n) (hl : lam1 < lam2) :
    tau_HR C_0 mu sigma_n lam2 < tau_HR C_0 mu sigma_n lam1 := by
  unfold tau_HR
  have hpos : 0 < mu * sigma_n := mul_pos hmu hsn
  nlinarith [mul_lt_mul_of_pos_left hl hpos]

/-- Witness for C10 at `C_0 = 0`, `mu = 6/10`, `sigma_n = 100`,
`lam1 = 0`, `lam2 = 36/100`. -/
theorem tau_HR_strict_anti_witness :
    (0 : ℚ) < 6/10 ∧ (0 : ℚ) < 100 ∧ (0 : ℚ) < 36/100 ∧
      tau_HR 0 (6/10) 100 (36/100) < tau_HR 0 (6/10) 100 0 :=
  ⟨by norm_num, by norm_num, by norm_num,
    tau_HR_strict_anti 0 (6/10) 100 0 (36/100) (by norm_num) (by norm_num)
      (by norm_num)⟩

/-! ## Closed-form expressions over scalar parameters

A notebook formula is a closed-form algebraic expression over named scalar
parameters.  Evaluation models Python float scalar arithmetic, raising
`ZeroDivisionError` on division by zero (the default numeric-domain error
propagation of the libraries). -/

/-- Closed-form algebraic expressions over named scalar parameters. -/
inductive Expr where
  | const (q : ℚ)
  | var (name : String)
  | add (a b : Expr)
  | sub (a b : Expr)
  | mul (a b : Expr)
  | div (a b : Expr)
deriving DecidableEq

/-- Evaluate an expression under an environment of scalar parameters.
Division by zero raises `ZeroDivisionError`, as in Python. -/
def evalExpr (env : String → ℚ) : Expr → Except String ℚ
  | .const q => .ok q
  | .var n => .ok (env n)
  | .add a b =>
    match evalExpr env a, evalExpr env b with
    | .ok x, .ok y => .ok (x + y)
    | .error e, _ => .error e
    | _, .error e => .error e
  | .sub a b =>
    match evalExpr env a, evalExpr env b with
    | .ok x, .ok y => .ok (x - y)
    | .error e, _ => .error e
    | _, .error e => .error e
  | .mul a b =>
    match evalExpr env a, evalExpr env b with
    | .ok x, .ok y => .ok (x * y)
    | .error e, _ => .error e
    | _, .error e => .error e
  | .div a b =>
    match evalExpr env a, evalExpr env b with
    | .ok x, .ok y => if y = 0 then .error "ZeroDivisionError" else .ok (x / y)
    | .error e, _ => .error e
    | _, .error e => .error e

/-- The parameters an expression reads. -/
def freeVars : Expr → List String
  | .const _ => []
  | .var n => [n]
  | .add a b => freeVars a ++ freeVars b
  | .sub a b => freeVars a ++ freeVars b
  | .mul a b => freeVars a ++ freeVars b
  | .div a b => freeVars a ++ freeVars b

/-- The Hubbert-Rubey formula `C_0 + mu * sigma_n * (1 - lambda)` as an
expression over its named parameters. -/
def hrExpr : Expr :=
  .add (.var "C_0")
    (.mul (.var "mu") (.mul (.var "sigma_n") (.sub (.const 1) (.var "lam"))))

/-- Element-wise evaluation of a formula over a sampled input axis: for each
sample the axis variable `x` is bound to the sample value and the formula is
evaluated under the remaining scalar parameters of `env`. -/
def curve (env : String → ℚ) (x : String) (e : Expr) (axis : List ℚ) :
    List (Except String ℚ) :=
  axis.map fun z => evalExpr (fun v => if v = x then z else env v) e

/-- Evaluation reads only the expression's free parameters: two environments
agreeing on `freeVars e` give the same result. -/
theorem evalExpr_agree (e : Expr) (env1 env2 : String → ℚ)
    (h : ∀ v ∈ freeVars e, env1 v = env2 v) :
    evalExpr env1 e = evalExpr env2 e := by
  induction e with
  | const q => rfl
  | var n => simp [evalExpr, h n (by simp [freeVars])]
  | add a b iha ihb =>
    have ha := iha fun v hv => h v (by simp [freeVars, hv])
    have hb := ihb fun v hv => h v (by simp [freeVars, hv])
    simp [evalExpr, ha, hb]
  | sub a b iha ihb =>
    have ha := iha fun v hv => h v (by simp [freeVars, hv])
    have hb := ihb fun v hv => h v (by simp [freeVars, hv])
    simp [evalExpr, ha, hb]
  | mul a b iha ihb =>
    have ha := iha fun v hv => h v (by simp [freeVars, hv])
    have hb := ihb fun v hv => h v (by simp [freeVars, hv])
    simp [evalExpr, ha, hb]
  | div a b iha ihb =>
    have ha := iha fun v hv => h v (by simp [freeVars, hv])
    have hb := ihb fun v hv => h v (by simp [freeVars, hv])
    simp [evalExpr, ha, hb]

/-- C4: a notebook formula is a pure function of its inputs: two element-wise
evaluations of the same formula, over the same input axis and under scalar
environments that agree on every parameter the formula reads, return identical
output sequences — no state outside the listed inputs affects the result. -/
theorem curve_pure (env1 env2 : String → ℚ) (x : String) (e : Expr)
    (axis : List ℚ) (h : ∀ v ∈ freeVars e, env1 v = env2 v) :
    curve env1 x e axis = curve env2 x e axis := by
  unfold curve
  refine List.map_congr_left fun z _ => ?_
  refine evalExpr_agree e _ _ fun v hv => ?_
  by_cases hx : v = x <;> simp [hx, h v hv]

/-- Witness for C4: two environments that differ outside the Hubbert-Rubey
formula's parameters give identical curves over a concrete axis. -/
theorem curve_pure_witness :
    (∀ v ∈ freeVars hrExpr,
        (fun (_ : String) => (1 : ℚ)) v =
        (fun v => if (freeVars hrExpr).contains v then (1 : ℚ) else 2) v) ∧
      curve (fun _ => (1 : ℚ)) "sigma_n" hrExpr [0, 1, 2] =
        curve (fun v => if (freeVars hrExpr).contains v then (1 : ℚ) else 2)
          "sigma_n" hrExpr [0, 1, 2] :=
  ⟨by decide, curve_pure _ _ "sigma_n" hrExpr [0, 1, 2] (by decide)⟩

/-- C5: the derived output sequence computed element-wise from an input axis
by a notebook formula has length equal to the length of the input axis. -/
theorem curve_length (env : String → ℚ) (x : String) (e : Expr)
    (axis : List ℚ) : (curve env x e axis).length = axis.length := by
  simp [curve]

/-! ## The notebook as a sequence of cells of statements

`brittle_faults_p2.ipynb` is a JSON document of ordered cells (markdown or
code).  Its statements are embedded below; the kernel-state semantics models
the Jupyter kernel the cells run in: a set of global bindings, the matplotlib
style configuration (`mpl.style.use` and `mpl.rcParams`), a plotting canvas
and the printed output. -/

/-- A Python value held in a kernel global binding: a bound library module
(`np`, `pd`, `plt`, `mpl`, `sys`) or a numeric scalar. -/
inductive PyValue where
  | module (name : String)
  | num (q : ℚ)
deriving DecidableEq

/-- A statement of a notebook code cell. -/
inductive Stmt where
  | importLib (moduleName asName : String)
  | styleUse (style : String)
  | rcParamSet (key value : String)
  | printStr (text : String)
  | printAttr (label obj attr : String)
  | assignFormula (target : String) (rhs : Expr)
  | plotCall (kind : String)
  | tryExcept (body handler : Stmt)
deriving DecidableEq

/-- The state of a notebook's kernel: global bindings, matplotlib style
configuration, the plotting canvas, and the printed output. -/
structure KernelState where
  globals : List (String × PyValue)
  style : String
  rcParams : List (String × String)
  canvas : List String
  output : List String
deriving DecidableEq

/-- The fresh state a kernel starts in. -/
def initState : KernelState :=
  ⟨[], "default", [], [], []⟩

/-- Look up a global binding (most recent binding wins, as in rebinding). -/
def lookupVar (g : List (String × PyValue)) (k : String) : Option PyValue :=
  match g with
  | [] => none
  | (k', v) :: rest => if k' = k then some v else lookupVar rest k

/-- The scalar environment a formula sees: numeric globals, by name. -/
def numEnv (st : KernelState) (v : String) : ℚ :=
  match lookupVar st.globals v with
  | some (.num q) => q
  | _ => 0

/-- Execute one statement on the kernel state.  A `NameError` is raised when a
printed attribute's object is unbound; numeric-domain errors from formula
evaluation propagate; `tryExcept` catches an error of its body and runs the
handler. -/
def execStmt (st : KernelState) : Stmt → Except String KernelState
  | .importLib m a => .ok { st with globals := (a, .module m) :: st.globals }
  | .styleUse s => .ok { st with style := s }
  | .rcParamSet k v => .ok { st with rcParams := (k, v) :: st.rcParams }
  | .printStr t => .ok { st with output := st.output ++ [t] }
  | .printAttr label obj attr =>
    match lookupVar st.globals obj with
    | none => .error ("NameError: name " ++ obj ++ " is not defined")
    | some _ =>
      .ok { st with output := st.output ++ [label ++ " <" ++ obj ++ "." ++ attr ++ ">"] }
  | .assignFormula t e =>
    match evalExpr (numEnv st) e with
    | .error err => .error err
    | .ok q => .ok { st with globals := (t, .num q) :: st.globals }
  | .plotCall k => .ok { st with canvas := st.canvas ++ [k] }
  | .tryExcept body handler =>
    match execStmt st body with
    | .ok st' => .ok st'
    | .error _ => execStmt st handler

/-- Execute the statements of a code cell in order; an uncaught error aborts
the cell and propagates out of it. -/
def execStmts (st : KernelState) : List Stmt → Except String KernelState
  | [] => .ok st
  | s :: rest =>
    match execStmt st s with
    | .ok st' => execStmts st' rest
    | .error e => .error e

/-- A notebook cell: markdown text, or a code cell of statements. -/
inductive Cell where
  | markdown (text : String)
  | code (stmts : List Stmt)

/-- A notebook: a JSON document of ordered cells. -/
structure Notebook where
  cells : List Cell

/-- Execute one cell: markdown cells do nothing, code cells run their
statements. -/
def execCell (st : KernelState) : Cell → Except String KernelState
  | .markdown _ => .ok st
  | .code ss => execStmts st ss

/-- Execute a notebook's cells top to bottom, one at a time, each from the
state the previous cell left behind; an uncaught error aborts the run. -/
def execCells (st : KernelState) : List Cell → Except String KernelState
  | [] => .ok st
  | c :: rest =>
    match execCell st c with
    | .ok st' => execCells st' rest
    | .error e => .error e

/-- Execute a notebook top to bottom in a fresh kernel. -/
def execNotebook (nb : Notebook) : Except String KernelState :=
  execCells initState nb.cells

/-- All statements of a notebook's code cells, in order. -/
def Notebook.codeStmts (nb : Notebook) : List Stmt :=
  nb.cells.foldr
    (fun c acc =>
      match c with
      | .code ss => ss ++ acc
      | .markdown _ => acc) []

/-- The setup cell of `brittle_faults_p2.ipynb`: library module bindings and
the custom matplotlib figure style. -/
def setupStmts : List Stmt :=
  [ .importLib "numpy" "np",
    .importLib "pandas" "pd",
    .importLib "matplotlib.pyplot" "plt",
    .importLib "matplotlib" "mpl",
    .styleUse "fivethirtyeight",
    .rcParamSet "figure.facecolor" "white",
    .rcParamSet "axes.facecolor" "white",
    .rcParamSet "axes.edgecolor" "white" ]

/-- The version-printing cell of `brittle_faults_p2.ipynb`. -/
def versionStmts : List Stmt :=
  [ .importLib "sys" "sys",
    .printStr "Notebook tested using:",
    .printAttr "Python" "sys" "version",
    .printAttr "Numpy" "np" "__version__",
    .printAttr "Matplotlib" "mpl" "__version__",
    .printAttr "Pandas" "pd" "__version__" ]

/-- The notebook `brittle_faults_p2.ipynb`: title markdown, setup code cell,
the Hubbert-Rubey markdown cell stating the formulas, and the version code
cell. -/
def brittle_faults_p2 : Notebook :=
  ⟨[ .markdown "Calculate frictional slopes (part 2): the role of pore pressure",
     .code setupStmts,
     .markdown "tau = C_0 + mu (sigma_n - P_f); tau = C_0 + mu sigma_n (1 - lambda)",
     .code versionStmts ]⟩

/-- The notebooks present in the repository. -/
def repoNotebooks : List Notebook :=
  [brittle_faults_p2]

/-- Whether a notebook's code cells bind a given library module. -/
def importsModule (nb : Notebook) (m : String) : Bool :=
  nb.codeStmts.any fun s =>
    match s with
    | .importLib m' _ => m' = m
    | _ => false

/-- Whether a notebook's code cells evaluate a closed-form algebraic
equation. -/
def evaluatesEquation (nb : Notebook) : Bool :=
  nb.codeStmts.any fun s =>
    match s with
    | .assignFormula _ _ => true
    | _ => false

/-- Whether a notebook's code cells render a chart. -/
def rendersChart (nb : Notebook) : Bool :=
  nb.codeStmts.any fun s =>
    match s with
    | .plotCall _ => true
    | _ => false

/-- Whether a statement catches (and possibly transforms) an exception. -/
def handlesException : Stmt → Bool
  | .tryExcept _ _ => true
  | _ => false

/-- The rcParams of a successful run (a failed run reports none). -/
def rcParamsOf : Except String KernelState → List (String × String)
  | .ok st => st.rcParams
  | .error _ => []

/-- Whether a run succeeded. -/
def isOkRun : Except String KernelState → Bool
  | .ok _ => true
  | .error _ => false

/-- Modelled from the spec: the multi-notebook Jupyter runtime is not part of
the repository's sources.  Per the spec, "There is no shared runtime state
across notebooks and no control flow between them; each is independent and
disposable": a session maps each notebook name to the result of its run (if it
has run), and running a notebook executes its cells in its own fresh kernel,
touching no other notebook's entry. -/
def Session : Type :=
  String → Option (Except String KernelState)

/-- The session in which no notebook has run. -/
def emptySession : Session := fun _ => none

/-- Run a notebook in a session: its cells execute in a fresh kernel of its
own, and only its own entry of the session is updated. -/
def runIn (s : Session) (name : String) (nb : Notebook) : Session :=
  fun j => if j = name then some (execNotebook nb) else s j

/-- C2 counterexample: it is not the case that every notebook in the
repository imports the three libraries, evaluates a closed-form equation over
a range of values, and renders a chart — `brittle_faults_p2` imports the
libraries but contains no equation-evaluating and no chart-rendering
statement. -/
theorem notebook_chart_claim_counterexample :
    ¬ ∀ nb ∈ repoNotebooks,
        (importsModule nb "numpy" = true ∧
          (importsModule nb "matplotlib" || importsModule nb "matplotlib.pyplot") = true ∧
          importsModule nb "pandas" = true) ∧
        evaluatesEquation nb = true ∧ rendersChart nb = true := by
  decide

/-- C2 amended: every notebook in the repository imports a numeric library
(numpy), a plotting library (matplotlib), and a dataframe library (pandas);
none of the in-progress notebooks contains an equation-evaluating or a
chart-rendering statement. -/
theorem repo_notebooks_import_libraries (nb : Notebook)
    (h : nb ∈ repoNotebooks) :
    (importsModule nb "numpy" = true ∧
      (importsModule nb "matplotlib" || importsModule nb "matplotlib.pyplot") = true ∧
      importsModule nb "pandas" = true) ∧
      evaluatesEquation nb = false ∧ rendersChart nb = false := by
  simp only [repoNotebooks, List.mem_singleton] at h
  subst h
  decide

/-- Witness for the amended C2 at the notebook `brittle_faults_p2`. -/
theorem repo_notebooks_import_libraries_witness :
    (importsModule brittle_faults_p2 "numpy" = true ∧
      (importsModule brittle_faults_p2 "matplotlib" ||
        importsModule brittle_faults_p2 "matplotlib.pyplot") = true ∧
      importsModule brittle_faults_p2 "pandas" = true) ∧
      evaluatesEquation brittle_faults_p2 = false ∧
      rendersChart brittle_faults_p2 = false :=
  repo_notebooks_import_libraries brittle_faults_p2 (List.mem_singleton.mpr rfl)

/-- C3: no statement of the notebook's code cells catches an exception, and an
error raised by any statement of a cell propagates unchanged out of the cell:
if the statements before it succeed and the statement raises `e`, the whole
cell's run ends with exactly `e`. -/
theorem no_handler_and_errors_propagate :
    (brittle_faults_p2.codeStmts.all fun s => !(handlesException s)) = true ∧
    ∀ (st st' : KernelState) (pre post : List Stmt) (s : Stmt) (e : String),
      execStmts st pre = Except.ok st' → execStmt st' s = Except.error e →
      execStmts st (pre ++ s :: post) = Except.error e := by
  constructor
  · decide
  · intro st st' pre post s e h1 h2
    induction pre generalizing st with
    | nil =>
      simp only [execStmts, Except.ok.injEq] at h1
      subst h1
      simp [execStmts, h2]
    | cons p rest ih =>
      simp only [List.cons_append, execStmts] at h1 ⊢
      cases hp : execStmt st p with
      | ok st1 =>
        rw [hp] at h1
        exact ih st1 h1
      | error e1 =>
        rw [hp] at h1
        exact absurd h1 (by simp)

/-- Witness for C3: a division by zero raised inside a cell propagates out of
the cell as a `ZeroDivisionError`. -/
theorem no_handler_and_errors_propagate_witness :
    execStmts initState
        ([] ++ Stmt.assignFormula "x" (Expr.div (Expr.const 1) (Expr.const 0)) :: []) =
      Except.error "ZeroDivisionError" :=
  no_handler_and_errors_propagate.2 initState initState [] []
    (Stmt.assignFormula "x" (Expr.div (Expr.const 1) (Expr.const 0)))
    "ZeroDivisionError" rfl rfl

/-- C6 counterexample: the setup cell does mutate state outside its own
bindings (the matplotlib rcParams change), the version-printing cell fails
with a `NameError` when run without the setup cell, yet succeeds right after
it — so mutable state written by one cell is read by another. -/
theorem cell_global_state_counterexample :
    rcParamsOf (execStmts initState setupStmts) ≠ initState.rcParams ∧
      execStmts initState versionStmts =
        Except.error "NameError: name np is not defined" ∧
      isOkRun (execCells initState [Cell.code setupStmts, Cell.code versionStmts]) = true := by
  refine ⟨by decide, rfl, rfl⟩

/-- C6 amended: the notebook's cells do share global kernel state — the setup
cell writes the module bindings and the matplotlib style configuration that
the version-printing cell reads — and a full top-to-bottom run mutates exactly
this state: the five module bindings, the figure style, the three rcParams
entries, an empty canvas, and the printed version lines. -/
theorem notebook_global_state_exact :
    execNotebook brittle_faults_p2 =
      Except.ok
        { globals := [("sys", PyValue.module "sys"),
            ("mpl", PyValue.module "matplotlib"),
            ("plt", PyValue.module "matplotlib.pyplot"),
            ("pd", PyValue.module "pandas"),
            ("np", PyValue.module "numpy")],
          style := "fivethirtyeight",
          rcParams := [("axes.edgecolor", "white"), ("axes.facecolor", "white"),
            ("figure.facecolor", "white")],
          canvas := [],
          output := ["Notebook tested using:", "Python <sys.version>",
            "Numpy <np.__version__>", "Matplotlib <mpl.__version__>",
            "Pandas <pd.__version__>"] } :=
  rfl

/-- C7: notebooks are mutually independent: a notebook's recorded run result
is the same whether or not another notebook has run before it (and running it
does not disturb the other notebook's entry) — a two-run noninterference
statement over the session. -/
theorem notebooks_noninterfere (s : Session) (nameA nameB : String)
    (nbA nbB : Notebook) (h : nameA ≠ nameB) :
    runIn (runIn s nameB nbB) nameA nbA nameA = runIn s nameA nbA nameA ∧
      runIn (runIn s nameB nbB) nameA nbA nameA = some (execNotebook nbA) ∧
      runIn (runIn s nameB nbB) nameA nbA nameB = some (execNotebook nbB) := by
  refine ⟨?_, ?_, ?_⟩ <;> simp [runIn, h, (Ne.symm h)]

/-- Witness for C7 with two concrete notebook names. -/
theorem notebooks_noninterfere_witness :
    "brittle_faults_p2" ≠ "stable_geotherm" ∧
      runIn (runIn emptySession "stable_geotherm" brittle_faults_p2)
          "brittle_faults_p2" brittle_faults_p2 "brittle_faults_p2" =
        runIn emptySession "brittle_faults_p2" brittle_faults_p2 "brittle_faults_p2" :=
  ⟨by decide,
    (notebooks_noninterfere emptySession "brittle_faults_p2" "stable_geotherm"
        brittle_faults_p2 brittle_faults_p2 (by decide)).1⟩

/-- C8: execution is synchronous and proceeds cell by cell in order: running a
list of cells split at any point equals running the first part to completion
and then, from the state it left, the second part; an error in the first part
aborts the whole run.  The semantics is a total function, so execution is
deterministic, with no suspension and no interleaving. -/
theorem execution_cell_by_cell (st : KernelState) (xs ys : List Cell) :
    execCells st (xs ++ ys) =
      match execCells st xs with
      | .ok st' => execCells st' ys
      | .error e => .error e := by
  induction xs generalizing st with
  | nil => rfl
  | cons c rest ih =>
    simp only [List.cons_append, execCells]
    cases hc : execCell st c with
    | ok st1 => exact ih st1
    | error e => rfl

end StrengthEnvelopes
